import Mathlib

/-!
# Verification of the Chat App backend (`main.py`, `schemas.py`)

A shallow embedding of the HTTP handlers of `main.py` and the storage
contract of §4.1 of the specification (the `database` module itself is not
part of the repository sources; its two helpers are modelled from the spec
where a claim depends on them).

Documents of the store are modelled as association lists from field names to
BSON-like values; Python `dict` operations (`get`, `pop`, item assignment)
are translated key by key, preserving insertion order.  Machine `ObjectId`
values are modelled as natural numbers whose external string form is the
24-character lowercase hex rendering, matching the store's native identifier
encoding.
-/

/-- A BSON-like value stored in a document field.  `oid` is the store's
internal identifier type (`bson.ObjectId`), `null` is Python `None`. -/
inductive BVal where
  | null
  | bool (b : Bool)
  | int (n : Int)
  | str (s : String)
  | oid (n : Nat)
  | arr (xs : List BVal)
  | doc (fields : List (String × BVal))
deriving Repr

mutual

def BVal.decEq : (a b : BVal) → Decidable (a = b)
  | .null, .null => isTrue rfl
  | .bool a, .bool b =>
    match Bool.decEq a b with
    | isTrue h => isTrue (h ▸ rfl)
    | isFalse h => isFalse (fun hh => h (BVal.bool.inj hh))
  | .int a, .int b =>
    match Int.decEq a b with
    | isTrue h => isTrue (h ▸ rfl)
    | isFalse h => isFalse (fun hh => h (BVal.int.inj hh))
  | .str a, .str b =>
    match String.decEq a b with
    | isTrue h => isTrue (h ▸ rfl)
    | isFalse h => isFalse (fun hh => h (BVal.str.inj hh))
  | .oid a, .oid b =>
    match Nat.decEq a b with
    | isTrue h => isTrue (h ▸ rfl)
    | isFalse h => isFalse (fun hh => h (BVal.oid.inj hh))
  | .arr xs, .arr ys =>
    match BVal.decEqList xs ys with
    | isTrue h => isTrue (h ▸ rfl)
    | isFalse h => isFalse (fun hh => h (BVal.arr.inj hh))
  | .doc xs, .doc ys =>
    match BVal.decEqFields xs ys with
    | isTrue h => isTrue (h ▸ rfl)
    | isFalse h => isFalse (fun hh => h (BVal.doc.inj hh))
  | .null, .bool _ | .null, .int _ | .null, .str _ | .null, .oid _
  | .null, .arr _ | .null, .doc _
  | .bool _, .null | .bool _, .int _ | .bool _, .str _ | .bool _, .oid _
  | .bool _, .arr _ | .bool _, .doc _
  | .int _, .null | .int _, .bool _ | .int _, .str _ | .int _, .oid _
  | .int _, .arr _ | .int _, .doc _
  | .str _, .null | .str _, .bool _ | .str _, .int _ | .str _, .oid _
  | .str _, .arr _ | .str _, .doc _
  | .oid _, .null | .oid _, .bool _ | .oid _, .int _ | .oid _, .str _
  | .oid _, .arr _ | .oid _, .doc _
  | .arr _, .null | .arr _, .bool _ | .arr _, .int _ | .arr _, .str _
  | .arr _, .oid _ | .arr _, .doc _
  | .doc _, .null | .doc _, .bool _ | .doc _, .int _ | .doc _, .str _
  | .doc _, .oid _ | .doc _, .arr _ => isFalse (fun h => nomatch h)

def BVal.decEqList : (xs ys : List BVal) → Decidable (xs = ys)
  | [], [] => isTrue rfl
  | x :: xs, y :: ys =>
    match BVal.decEq x y, BVal.decEqList xs ys with
    | isTrue h1, isTrue h2 => isTrue (h1 ▸ h2 ▸ rfl)
    | isFalse h1, _ => isFalse (fun hh => h1 (List.cons.inj hh).1)
    | _, isFalse h2 => isFalse (fun hh => h2 (List.cons.inj hh).2)
  | [], _ :: _ => isFalse (fun h => nomatch h)
  | _ :: _, [] => isFalse (fun h => nomatch h)

def BVal.decEqFields : (xs ys : List (String × BVal)) → Decidable (xs = ys)
  | [], [] => isTrue rfl
  | (k1, v1) :: xs, (k2, v2) :: ys =>
    match String.decEq k1 k2, BVal.decEq v1 v2, BVal.decEqFields xs ys with
    | isTrue h0, isTrue h1, isTrue h2 => isTrue (h0 ▸ h1 ▸ h2 ▸ rfl)
    | isFalse h0, _, _ =>
      isFalse (fun hh => h0 (congrArg Prod.fst (List.cons.inj hh).1))
    | _, isFalse h1, _ =>
      isFalse (fun hh => h1 (congrArg Prod.snd (List.cons.inj hh).1))
    | _, _, isFalse h2 => isFalse (fun hh => h2 (List.cons.inj hh).2)
  | [], _ :: _ => isFalse (fun h => nomatch h)
  | _ :: _, [] => isFalse (fun h => nomatch h)

end

instance : DecidableEq BVal := BVal.decEq

/-- A stored record: an insertion-ordered mapping from field names to values
(Python `dict`). -/
abbrev Doc := List (String × BVal)

/-- Python `d.get(k)`: the value of the first binding of `k`, if any. -/
def getKey (k : String) (d : Doc) : Option BVal :=
  match d.find? (fun p => p.1 == k) with
  | some p => some p.2
  | none => none

/-- Python `d.pop(k)` (the removal part): drop every binding of `k`. -/
def dropKey (k : String) (d : Doc) : Doc :=
  d.filter (fun p => p.1 != k)

/-- Python `d[k] = v`: overwrite in place when the key exists, else append. -/
def setKey (k : String) (v : BVal) (d : Doc) : Doc :=
  if d.any (fun p => p.1 == k) then
    d.map (fun p => if p.1 == k then (k, v) else p)
  else d ++ [(k, v)]

/-- Python truthiness of a BSON-like value (`if doc.get("_id"):`). -/
def truthy : BVal → Bool
  | .null => false
  | .bool b => b
  | .int n => n != 0
  | .str s => s != ""
  | .oid _ => true
  | .arr xs => !xs.isEmpty
  | .doc fs => !fs.isEmpty

/-- The lowercase hex digit for `n % 16`. -/
def hexChar (n : Nat) : Char :=
  if n < 10 then Char.ofNat (48 + n) else Char.ofNat (87 + n)

/-- The last `k` hex digits of `n`, most significant first. -/
def hexDigits (k : Nat) (n : Nat) : List Char :=
  match k with
  | 0 => []
  | k + 1 => hexDigits k (n / 16) ++ [hexChar (n % 16)]

/-- `str(ObjectId)`: the 24-character lowercase hex form of an identifier. -/
def toHex24 (n : Nat) : String :=
  ⟨hexDigits 24 n⟩

/-- A lowercase hex digit, as produced by `toHex24`. -/
def isLowerHexCh (c : Char) : Bool :=
  (Char.ofNat 48 ≤ c && c ≤ Char.ofNat 57) || (Char.ofNat 97 ≤ c && c ≤ Char.ofNat 102)

/-- A hex digit in either case, as accepted by `bson.ObjectId`. -/
def isHexCh (c : Char) : Bool :=
  isLowerHexCh c || (Char.ofNat 65 ≤ c && c ≤ Char.ofNat 70)

/-- Numeric value of a hex digit character. -/
def hexVal (c : Char) : Nat :=
  if Char.ofNat 48 ≤ c && c ≤ Char.ofNat 57 then c.toNat - 48
  else if Char.ofNat 97 ≤ c then c.toNat - 87
  else c.toNat - 55

/-- `bson.ObjectId(s)`: accepts exactly the 24-hex-character strings and
raises `InvalidId` otherwise; modelled as an `Option`-valued parser. -/
def parseOid (s : String) : Option Nat :=
  if s.length == 24 && s.data.all isHexCh then
    some (s.data.foldl (fun a c => a * 16 + hexVal c) 0)
  else none

/-- `str()` of a stored value, as used by `serialize_doc`.  Only identifier
values reach `str()` in this system (the `_id` field always holds an
`ObjectId`); container reprs are abbreviated placeholders. -/
def pyStr : BVal → String
  | .null => "None"
  | .bool b => if b then "True" else "False"
  | .int n => toString n
  | .str s => s
  | .oid n => toHex24 n
  | .arr _ => "<list>"
  | .doc _ => "<dict>"

/-- Value conversion of the loop `for k, v in list(doc.items()): if
isinstance(v, ObjectId): doc[k] = str(v)` — top-level only. -/
def convOid : BVal → BVal
  | .oid n => .str (toHex24 n)
  | v => v

/-- `serialize_doc` (main.py:24-34): empty/absent records unchanged;
a truthy `_id` is popped and re-added as the string field `id`; then every
top-level `ObjectId` value is converted to its string form. -/
def serialize_doc (d : Doc) : Doc :=
  if d.isEmpty then d
  else
    let d1 :=
      match getKey "_id" d with
      | some v => if truthy v then setKey "id" (.str (pyStr v)) (dropKey "_id" d) else d
      | none => d
    d1.map (fun p => (p.1, convOid p.2))

/-- `serialize_list` (main.py:37-38). -/
def serialize_list (ds : List Doc) : List Doc :=
  ds.map serialize_doc

example : serialize_doc [] = [] := by decide
example : toHex24 1 = "000000000000000000000001" := by decide
example : parseOid "000000000000000000000001" = some 1 := by decide
example : parseOid "xyz" = none := by decide
example :
    serialize_doc [("_id", .oid 1), ("name", .str "a")]
      = [("name", .str "a"), ("id", .str "000000000000000000000001")] := by decide

/-!
## The store

`database.py` is not part of the repository sources; `main.py` imports
`create_document`, `get_documents` and the handle `db` from it.  The store
state is three collections plus a counter supplying the next generated
identifier; a mode records whether the connection is working, raising on
every call, or never initialized (`db is None`).
-/

/-- The three collections of the store, plus the next generated identifier. -/
structure Store where
  nextId : Nat
  user : List Doc
  room : List Doc
  message : List Doc
deriving Repr

/-- Connection state of the shared store handle: working, raising on every
call, raising only on calls touching the named collections (a connection
that fails at a specific call of the request), or never initialized
(`db is None`). -/
inductive StoreMode where
  | ok
  | errm (msg : String)
  | errOn (bad : List String) (msg : String)
  | uninit
deriving Repr, DecidableEq

/-- The global `db` handle together with the data behind it. -/
structure DB where
  mode : StoreMode
  store : Store
deriving Repr

/-- The collection named `coll` (collection names are the lowercase schema
class names: `user`, `room`, `message`). -/
def Store.collOf (s : Store) : String → List Doc
  | "user" => s.user
  | "room" => s.room
  | "message" => s.message
  | _ => []

/-- A document matches an equality filter when every filter key is bound to
the given value (the only query shape this backend uses). -/
def matchesFilter (f : Doc) (d : Doc) : Bool :=
  f.all (fun p => getKey p.1 d == some p.2)

/-- `db.<coll>.find_one(filter)`: first matching document, raising when the
connection errors or `db` is `None` (attribute access on `None` raises). -/
def DB.findOne (db : DB) (coll : String) (f : Doc) : Except String (Option Doc) :=
  match db.mode with
  | .ok => .ok ((db.store.collOf coll).find? (matchesFilter f))
  | .errm m => .error m
  | .errOn bad m =>
    if bad.contains coll then .error m
    else .ok ((db.store.collOf coll).find? (matchesFilter f))
  | .uninit => .error "AttributeError: NoneType has no attributes"

/-- Modelled from the spec: `get_documents` lives in the absent `database`
module; §4.1 — returns all records matching an equality filter, capped at
`limit` if given, an empty list when nothing matches, and fails when the
connection is unavailable. -/
def get_documents (db : DB) (coll : String) (f : Doc) (limit : Option Nat) :
    Except String (List Doc) :=
  match db.mode with
  | .ok =>
    let res := (db.store.collOf coll).filter (matchesFilter f)
    .ok (match limit with | some l => res.take l | none => res)
  | .errm m => .error m
  | .errOn bad m =>
    if bad.contains coll then .error m
    else
      let res := (db.store.collOf coll).filter (matchesFilter f)
      .ok (match limit with | some l => res.take l | none => res)
  | .uninit => .error "StorageError"

/-- Insert `d` into the collection named `coll`. -/
def Store.insertInto (s : Store) (coll : String) (d : Doc) : Store :=
  match coll with
  | "user" => { s with user := s.user ++ [d] }
  | "room" => { s with room := s.room ++ [d] }
  | "message" => { s with message := s.message ++ [d] }
  | _ => s

/-- Modelled from the spec: `create_document` lives in the absent `database`
module; §4.1 — inserts the record into the named collection and returns the
newly assigned identifier as a string (the store's 24-hex encoding), failing
with a `StorageError` when the connection is unavailable. -/
def create_document (db : DB) (coll : String) (record : Doc) :
    Except String (String × DB) :=
  match db.mode with
  | .ok =>
    let oid := db.store.nextId
    let stored : Doc := ("_id", .oid oid) :: record
    let st := { db.store with nextId := db.store.nextId + 1 }
    .ok (toHex24 oid, { db with store := st.insertInto coll stored })
  | .errm m => .error m
  | .errOn bad m =>
    if bad.contains coll then .error m
    else
      let oid := db.store.nextId
      let stored : Doc := ("_id", .oid oid) :: record
      let st := { db.store with nextId := db.store.nextId + 1 }
      .ok (toHex24 oid, { db with store := st.insertInto coll stored })
  | .uninit => .error "StorageError"

/-- Mongo `$addToSet` on an array value: append if absent, no-op if
present.  (On a non-array value Mongo errors; rooms in this system always
hold an array in `members`.) -/
def addToSetVal (uid : String) : BVal → BVal
  | .arr xs => if xs.contains (.str uid) then .arr xs else .arr (xs ++ [.str uid])
  | v => v

/-- `$addToSet: {"members": uid}` applied to one room document: update the
`members` field if present, else create it as a one-element array. -/
def addToSetMembers (uid : String) (d : Doc) : Doc :=
  if d.any (fun p => p.1 == "members") then
    d.map (fun p => if p.1 == "members" then (p.1, addToSetVal uid p.2) else p)
  else d ++ [("members", .arr [.str uid])]

/-- `update_one` on the room collection: the first document whose `_id`
matches is updated with `$addToSet`; no match updates nothing. -/
def updateFirstRoom (roid : Nat) (uid : String) : List Doc → List Doc
  | [] => []
  | d :: ds =>
    if getKey "_id" d == some (.oid roid) then addToSetMembers uid d :: ds
    else d :: updateFirstRoom roid uid ds

/-- `db.room.update_one({"_id": oid}, {"$addToSet": {"members": user_id}})`;
raises when the connection errors or `db` is `None`. -/
def DB.updateOneAddToSet (db : DB) (roid : Nat) (uid : String) : Except String DB :=
  match db.mode with
  | .ok =>
    .ok { db with store :=
      { db.store with room := updateFirstRoom roid uid db.store.room } }
  | .errm m => .error m
  | .errOn bad m =>
    if bad.contains "room" then .error m
    else .ok { db with store :=
      { db.store with room := updateFirstRoom roid uid db.store.room } }
  | .uninit => .error "AttributeError: NoneType has no attributes"

/-- Outcome of one handler invocation: a 200 body, a raised
`HTTPException(code, detail)`, or an unhandled exception propagating to the
framework. -/
inductive HRes (α : Type) where
  | ok (body : α)
  | http (code : Nat) (detail : String)
  | exn (msg : String)
deriving Repr

def HRes.decEqI [DecidableEq α] : (a b : HRes α) → Decidable (a = b)
  | .ok x, .ok y =>
    match decEq x y with
    | isTrue h => isTrue (h ▸ rfl)
    | isFalse h => isFalse (fun hh => h (HRes.ok.inj hh))
  | .http c1 d1, .http c2 d2 =>
    match Nat.decEq c1 c2, String.decEq d1 d2 with
    | isTrue h1, isTrue h2 => isTrue (h1 ▸ h2 ▸ rfl)
    | isFalse h1, _ => isFalse (fun hh => h1 (HRes.http.inj hh).1)
    | _, isFalse h2 => isFalse (fun hh => h2 (HRes.http.inj hh).2)
  | .exn m1, .exn m2 =>
    match String.decEq m1 m2 with
    | isTrue h => isTrue (h ▸ rfl)
    | isFalse h => isFalse (fun hh => h (HRes.exn.inj hh))
  | .ok _, .http _ _ | .ok _, .exn _
  | .http _ _, .ok _ | .http _ _, .exn _
  | .exn _, .ok _ | .exn _, .http _ _ => isFalse (fun h => nomatch h)

instance [DecidableEq α] : DecidableEq (HRes α) := HRes.decEqI

/-!
## HTTP handlers (`main.py`)

`try/except` blocks are translated as matches on the `Except`-valued store
operations; an `HTTPException` raised inside a `try` that re-raises it
(`except HTTPException: raise`) short-circuits as in the source.
-/

/-- Python `str.strip()`: remove leading and trailing whitespace. -/
def pyStrip (s : String) : String :=
  ⟨((s.data.dropWhile Char.isWhitespace).reverse.dropWhile Char.isWhitespace).reverse⟩

/-- Request body of `POST /api/users` (main.py:88-90). -/
structure CreateUser where
  display_name : String
  avatar_url : Option String

/-- Request body of `POST /api/rooms` (main.py:93-96). -/
structure CreateRoom where
  name : String
  is_private : Bool
  members : Option (List String)

/-- Request body of `POST /api/rooms/{id}/join` (main.py:99-100). -/
structure JoinRoom where
  user_id : String

/-- Request body of `POST /api/rooms/{id}/messages` (main.py:103-106);
`content` carries `min_length=1, max_length=5000`, enforced by the
validation layer before the handler runs. -/
structure SendMessage where
  sender_id : String
  content : String
  type : String

/-- Python `None`/`str` optional field as a stored value. -/
def optStr : Option String → BVal
  | none => .null
  | some s => .str s

/-- `create_user` (main.py:113-121). -/
def create_user (db : DB) (p : CreateUser) : HRes Doc × DB :=
  let user : Doc :=
    [("display_name", .str p.display_name),
     ("avatar_url", optStr p.avatar_url),
     ("status", .str "online")]
  match create_document db "user" user with
  | .error m => (.exn m, db)
  | .ok (uid, db1) => (.ok (("id", .str uid) :: user), db1)

/-- `list_users` (main.py:124-127). -/
def list_users (db : DB) : HRes (List Doc) :=
  match get_documents db "user" [] none with
  | .error m => .exn m
  | .ok docs => .ok (serialize_list docs)

/-- `get_user` (main.py:130-138): the `try` covers both the `ObjectId`
construction and the `get_documents` call, so either failure is a 400. -/
def get_user (db : DB) (user_id : String) : HRes Doc :=
  match parseOid user_id with
  | none => .http 400 "Invalid user id"
  | some o =>
    match get_documents db "user" [("_id", .oid o)] none with
    | .error _ => .http 400 "Invalid user id"
    | .ok [] => .http 404 "User not found"
    | .ok (d :: _) => .ok (serialize_doc d)

/-- `list_rooms` (main.py:145-148). -/
def list_rooms (db : DB) : HRes (List Doc) :=
  match get_documents db "room" [] none with
  | .error m => .exn m
  | .ok docs => .ok (serialize_list docs)

/-- `create_room` (main.py:151-160). -/
def create_room (db : DB) (p : CreateRoom) : HRes Doc × DB :=
  let room : Doc :=
    [("name", .str p.name),
     ("type", .str "channel"),
     ("members", .arr ((p.members.getD []).map .str)),
     ("is_private", .bool p.is_private)]
  match create_document db "room" room with
  | .error m => (.exn m, db)
  | .ok (rid, db1) => (.ok (("id", .str rid) :: room), db1)

/-- `join_room` (main.py:163-186): room-id format check, then user
existence (whose `try` turns a store failure into a 400), then the
membership update and re-read, both outside any `try`. -/
def join_room (db : DB) (room_id : String) (p : JoinRoom) : HRes Doc × DB :=
  match parseOid room_id with
  | none => (.http 400 "Invalid room id", db)
  | some roid =>
    match parseOid p.user_id with
    | none => (.http 400 "Invalid user id", db)
    | some uoid =>
      match db.findOne "user" [("_id", .oid uoid)] with
      | .error _ => (.http 400 "Invalid user id", db)
      | .ok none => (.http 404 "User not found", db)
      | .ok (some _) =>
        match db.updateOneAddToSet roid p.user_id with
        | .error m => (.exn m, db)
        | .ok db1 =>
          match db1.findOne "room" [("_id", .oid roid)] with
          | .error m => (.exn m, db1)
          | .ok none => (.http 404 "Room not found", db1)
          | .ok (some d) => (.ok (serialize_doc d), db1)

/-- Sort key of `get_messages`: `m.get("created_at", 0)`.  Creation times
are numeric in the store; a missing field defaults to `0`. -/
def createdKey (d : Doc) : Int :=
  match getKey "created_at" d with
  | some (.int n) => n
  | _ => 0

/-- Stable insertion into a list sorted by `createdKey` (equal keys keep
their relative order, as Python's stable `list.sort` does). -/
def insertByKey (x : Doc) : List Doc → List Doc
  | [] => [x]
  | y :: ys =>
    if createdKey x ≤ createdKey y then x :: y :: ys else y :: insertByKey x ys

/-- Stable sort by `createdKey`, extensionally equal to Python's stable
`list.sort(key=lambda m: m.get("created_at", 0))`. -/
def sortByCreated : List Doc → List Doc
  | [] => []
  | x :: xs => insertByKey x (sortByCreated xs)

/-- `get_messages` (main.py:193-202). -/
def get_messages (db : DB) (room_id : String) (limit : Nat) : HRes (List Doc) :=
  match parseOid room_id with
  | none => .http 400 "Invalid room id"
  | some _ =>
    match get_documents db "message" [("room_id", .str room_id)] (some limit) with
    | .error m => .exn m
    | .ok msgs => .ok (serialize_list (sortByCreated msgs))

/-- `send_message` (main.py:205-235): room check (store failures inside the
`try` become a 400), sender check likewise, then the insert. -/
def send_message (db : DB) (room_id : String) (p : SendMessage) : HRes Doc × DB :=
  match parseOid room_id with
  | none => (.http 400 "Invalid room id", db)
  | some roid =>
    match db.findOne "room" [("_id", .oid roid)] with
    | .error _ => (.http 400 "Invalid room id", db)
    | .ok none => (.http 404 "Room not found", db)
    | .ok (some _) =>
      match parseOid p.sender_id with
      | none => (.http 400 "Invalid user id", db)
      | some uoid =>
        match db.findOne "user" [("_id", .oid uoid)] with
        | .error _ => (.http 400 "Invalid user id", db)
        | .ok none => (.http 404 "User not found", db)
        | .ok (some _) =>
          let msg : Doc :=
            [("room_id", .str room_id),
             ("sender_id", .str p.sender_id),
             ("content", .str (pyStrip p.content)),
             ("type", .str p.type),
             ("is_edited", .bool false),
             ("is_deleted", .bool false)]
          match create_document db "message" msg with
          | .error m => (.exn m, db)
          | .ok (mid, db1) => (.ok (("id", .str mid) :: msg), db1)

/-- The send-message route including the framework's body validation: a
`content` violating `min_length=1`/`max_length=5000` is rejected with a 422
before the handler (and hence the store) is reached. -/
def send_message_route (db : DB) (room_id : String) (p : SendMessage) :
    HRes Doc × DB :=
  if p.content.length < 1 || p.content.length > 5000 then
    (.http 422 "String should have at least 1 character", db)
  else send_message db room_id p

/-!
## The `/test` diagnostic endpoint (main.py:50-81)
-/

/-- The state `/test` observes: the global `db` handle is either `None` or a
connected handle with a name and a `list_collection_names()` outcome. -/
inductive TestDbState where
  | isNone
  | conn (name : String) (listResult : Except String (List String))

/-- Environment of one `/test` invocation: the `db` state plus whether the
`DATABASE_URL` and `DATABASE_NAME` variables are set. -/
structure TestEnv where
  dbState : TestDbState
  urlSet : Bool
  nameSet : Bool

/-- The response dict built by `test_database`. -/
structure TestResponse where
  backend : String
  database : String
  database_url : String
  database_name : String
  connection_status : String
  collections : List String
deriving Repr, DecidableEq

/-- `test_database` (main.py:50-81): starts from a pessimistic response,
upgrades it per the `db` state, catches any `list_collection_names` failure
into a truncated status string, and finally overwrites the url/name fields
from the environment.  Every failure is caught, so the route always returns
a 200 body. -/
def test_database (env : TestEnv) : HRes TestResponse :=
  let r0 : TestResponse :=
    { backend := "✅ Running"
      database := "❌ Not Available"
      database_url := "None"
      database_name := "None"
      connection_status := "Not Connected"
      collections := [] }
  let r1 :=
    match env.dbState with
    | .isNone => { r0 with database := "⚠️  Available but not initialized" }
    | .conn name listResult =>
      let r := { r0 with
        database := "✅ Available"
        database_url := if env.urlSet then "✅ Set" else "❌ Not Set"
        database_name := name
        connection_status := "Connected" }
      match listResult with
      | .ok colls =>
        { r with collections := colls.take 10, database := "✅ Connected & Working" }
      | .error e =>
        { r with database := "⚠️  Connected but Error: " ++ e.take 50 }
  .ok { r1 with
    database_url := if env.urlSet then "✅ Set" else "❌ Not Set"
    database_name := if env.nameSet then "✅ Set" else "❌ Not Set" }

/-!
## Concrete fixtures for witnesses and counterexamples
-/

/-- A stored user with identifier 0. -/
def userDoc0 : Doc :=
  [("_id", .oid 0), ("display_name", .str "alice"),
   ("avatar_url", .null), ("status", .str "online")]

/-- A stored room with identifier 1 and no members. -/
def roomDoc1 : Doc :=
  [("_id", .oid 1), ("name", .str "general"), ("type", .str "channel"),
   ("members", .arr []), ("is_private", .bool false)]

/-- A healthy store holding one user and one room. -/
def okDB : DB :=
  { mode := .ok,
    store := { nextId := 2, user := [userDoc0], room := [roomDoc1], message := [] } }

/-- The 24-hex string of identifier 0 (the stored user). -/
def uid0 : String := "000000000000000000000000"

/-- The 24-hex string of identifier 1 (the stored room). -/
def rid1 : String := "000000000000000000000001"

example : parseOid uid0 = some 0 := by decide
example : parseOid rid1 = some 1 := by decide
example :
    (send_message_route okDB rid1 ⟨uid0, "hi", "text"⟩).1
      = .ok [("id", .str "000000000000000000000002"), ("room_id", .str rid1),
             ("sender_id", .str uid0), ("content", .str "hi"),
             ("type", .str "text"), ("is_edited", .bool false),
             ("is_deleted", .bool false)] := by decide

/-!
## Association-list lemmas
-/

theorem getKey_nil (k : String) : getKey k [] = none := rfl

theorem getKey_cons_self (k : String) (v : BVal) (d : Doc) :
    getKey k ((k, v) :: d) = some v := by
  simp [getKey, List.find?]

theorem getKey_cons_ne (k k1 : String) (v : BVal) (d : Doc) (h : k1 ≠ k) :
    getKey k ((k1, v) :: d) = getKey k d := by
  have hb : (k1 == k) = false := beq_eq_false_iff_ne.mpr h
  simp [getKey, List.find?, hb]

theorem dropKey_cons (k2 k1 : String) (v : BVal) (d : Doc) :
    dropKey k2 ((k1, v) :: d)
      = if k1 = k2 then dropKey k2 d else (k1, v) :: dropKey k2 d := by
  by_cases h : k1 = k2
  · have hb : (k1 != k2) = false := by simp [bne, h]
    simp [dropKey, List.filter, hb, h]
  · have hb : (k1 != k2) = true := by simp [bne, h]
    simp [dropKey, List.filter, hb, h]

theorem getKey_map_val (g : BVal → BVal) (k : String) (d : Doc) :
    getKey k (d.map (fun p => (p.1, g p.2))) = (getKey k d).map g := by
  induction d with
  | nil => rfl
  | cons p d ih =>
    rcases p with ⟨k1, v⟩
    by_cases h : k1 = k
    · subst h; simp only [List.map_cons, getKey_cons_self, Option.map_some']
    · simp only [List.map_cons, getKey_cons_ne _ _ _ _ h, ih]

theorem getKey_dropKey_self (k : String) (d : Doc) :
    getKey k (dropKey k d) = none := by
  induction d with
  | nil => rfl
  | cons p d ih =>
    rcases p with ⟨k1, v⟩
    by_cases h : k1 = k
    · simp [dropKey_cons, h, ih]
    · simp only [dropKey_cons, if_neg h, getKey_cons_ne _ _ _ _ h, ih]

theorem getKey_dropKey_ne (k k2 : String) (h : k ≠ k2) (d : Doc) :
    getKey k (dropKey k2 d) = getKey k d := by
  induction d with
  | nil => rfl
  | cons p d ih =>
    rcases p with ⟨k1, v⟩
    by_cases h1 : k1 = k2
    · have hk : k1 ≠ k := by rw [h1]; exact fun hh => h hh.symm
      simp only [dropKey_cons, if_pos h1, ih, getKey_cons_ne _ _ _ _ hk]
    · by_cases hk : k1 = k
      · subst hk; simp only [dropKey_cons, if_neg h1, getKey_cons_self]
      · simp only [dropKey_cons, if_neg h1, getKey_cons_ne _ _ _ _ hk, ih]

theorem getKey_append_one_ne (k k2 : String) (v : BVal) (h : k2 ≠ k) (d : Doc) :
    getKey k (d ++ [(k2, v)]) = getKey k d := by
  induction d with
  | nil => simpa [getKey_nil] using getKey_cons_ne k k2 v [] h
  | cons p d ih =>
    rcases p with ⟨k1, w⟩
    by_cases hk : k1 = k
    · subst hk; simp only [List.cons_append, getKey_cons_self]
    · simp only [List.cons_append, getKey_cons_ne _ _ _ _ hk, ih]

theorem getKey_append_one_self (k : String) (v : BVal) (d : Doc)
    (h : d.any (fun p => p.1 == k) = false) :
    getKey k (d ++ [(k, v)]) = some v := by
  induction d with
  | nil => simp [getKey_cons_self]
  | cons p d ih =>
    rcases p with ⟨k1, w⟩
    simp only [List.any_cons, Bool.or_eq_false_iff] at h
    have hk : k1 ≠ k := by
      intro hh; rw [hh] at h; simp at h
    simp only [List.cons_append, getKey_cons_ne _ _ _ _ hk, ih h.2]

theorem getKey_setKey_self (k : String) (v : BVal) (d : Doc) :
    getKey k (setKey k v d) = some v := by
  unfold setKey
  by_cases hany : d.any (fun p => p.1 == k) = true
  · simp only [hany, if_true]
    induction d with
    | nil => simp at hany
    | cons p d ih =>
      rcases p with ⟨k1, w⟩
      by_cases hk : k1 = k
      · have hb : (k1 == k) = true := by simp [hk]
        simp only [List.map_cons]
        rw [if_pos hb, getKey_cons_self]
      · have hb : (k1 == k) = false := beq_eq_false_iff_ne.mpr hk
        have hnb : ¬((k1 == k) = true) := by simp [hb]
        simp only [List.any_cons, hb, Bool.false_or] at hany
        simp only [List.map_cons]
        rw [if_neg hnb, getKey_cons_ne _ _ _ _ hk]
        exact ih hany
  · simp only [hany, if_false]
    simp only [Bool.not_eq_true] at hany
    exact getKey_append_one_self k v d hany

theorem getKey_setKey_ne (k k2 : String) (v : BVal) (h : k ≠ k2) (d : Doc) :
    getKey k (setKey k2 v d) = getKey k d := by
  unfold setKey
  by_cases hany : d.any (fun p => p.1 == k2) = true
  · simp only [hany, if_true]
    clear hany
    induction d with
    | nil => rfl
    | cons p d ih =>
      rcases p with ⟨k1, w⟩
      by_cases hk : k1 = k2
      · have hb : (k1 == k2) = true := by simp [hk]
        have hk2k : k2 ≠ k := fun hh => h hh.symm
        have hk1k : k1 ≠ k := by rw [hk]; exact hk2k
        simp only [List.map_cons]
        rw [if_pos hb, getKey_cons_ne _ _ _ _ hk2k, getKey_cons_ne _ _ _ _ hk1k, ih]
      · have hb : (k1 == k2) = false := beq_eq_false_iff_ne.mpr hk
        have hnb : ¬((k1 == k2) = true) := by simp [hb]
        simp only [List.map_cons]
        rw [if_neg hnb]
        by_cases hkk : k1 = k
        · subst hkk; simp only [getKey_cons_self]
        · rw [getKey_cons_ne _ _ _ _ hkk, getKey_cons_ne _ _ _ _ hkk, ih]
  · simp only [hany, if_false]
    exact getKey_append_one_ne k k2 v (fun hh => h hh.symm) d

theorem getKey_any (k : String) (v : BVal) (d : Doc)
    (h : getKey k d = some v) : d.any (fun p => p.1 == k) = true := by
  induction d with
  | nil => simp [getKey_nil] at h
  | cons p d ih =>
    rcases p with ⟨k1, w⟩
    by_cases hk : k1 = k
    · simp [List.any_cons, hk]
    · rw [getKey_cons_ne _ _ _ _ hk] at h
      simp [List.any_cons, ih h]

/-!
## Identifier-format lemmas
-/

theorem hexDigits_length (k n : Nat) : (hexDigits k n).length = k := by
  induction k generalizing n with
  | zero => rfl
  | succ k ih => simp [hexDigits, ih]

theorem hexChar_lowerHex (m : Nat) (h : m < 16) : isLowerHexCh (hexChar m) = true := by
  interval_cases m <;> decide

theorem hexDigits_all_hex (k n : Nat) :
    (hexDigits k n).all isLowerHexCh = true := by
  induction k generalizing n with
  | zero => rfl
  | succ k ih =>
    simp only [hexDigits, List.all_append, List.all_cons, List.all_nil,
      Bool.and_true, Bool.and_eq_true]
    exact ⟨ih _, hexChar_lowerHex _ (Nat.mod_lt _ (by norm_num))⟩

theorem toHex24_length (n : Nat) : (toHex24 n).length = 24 := by
  simp [toHex24, String.length, hexDigits_length]

theorem toHex24_all_hex (n : Nat) : (toHex24 n).data.all isLowerHexCh = true := by
  simpa [toHex24] using hexDigits_all_hex 24 n

/-- Trimming never lengthens a string. -/
theorem pyStrip_length_le (s : String) : (pyStrip s).length ≤ s.length := by
  simp only [pyStrip, String.length]
  calc ((s.data.dropWhile Char.isWhitespace).reverse.dropWhile
          Char.isWhitespace).reverse.length
      = ((s.data.dropWhile Char.isWhitespace).reverse.dropWhile
          Char.isWhitespace).length := List.length_reverse _
    _ ≤ (s.data.dropWhile Char.isWhitespace).reverse.length :=
        (List.dropWhile_suffix _).sublist.length_le
    _ = (s.data.dropWhile Char.isWhitespace).length := List.length_reverse _
    _ ≤ s.data.length := (List.dropWhile_suffix _).sublist.length_le

/-!
## C4 — serialization helper
-/

/-- C4 (amended): for every stored record carrying an internal identifier,
`serialize_doc` renames `_id` to `id` converted to its 24-hex string form,
converts every other *top-level* field of identifier type to a string, and
maps an empty/absent record to itself; identifiers embedded in nested
documents are left unconverted (the conversion is not recursive). -/
theorem c4_serialize_doc_top_level (d : Doc) (n : Nat)
    (h : getKey "_id" d = some (.oid n)) :
    getKey "id" (serialize_doc d) = some (.str (toHex24 n)) ∧
    getKey "_id" (serialize_doc d) = none ∧
    (∀ k m, k ≠ "_id" → k ≠ "id" → getKey k d = some (.oid m) →
      getKey k (serialize_doc d) = some (.str (toHex24 m))) ∧
    serialize_doc [] = [] := by
  have hne : d.isEmpty = false := by
    cases d with
    | nil => simp [getKey_nil] at h
    | cons p d => rfl
  have hs : serialize_doc d
      = (setKey "id" (.str (toHex24 n)) (dropKey "_id" d)).map
          (fun p => (p.1, convOid p.2)) := by
    simp [serialize_doc, hne, h, truthy, pyStr]
  refine ⟨?_, ?_, ?_, rfl⟩
  · rw [hs, getKey_map_val, getKey_setKey_self]; rfl
  · rw [hs, getKey_map_val,
      getKey_setKey_ne _ _ _ (by decide), getKey_dropKey_self]; rfl
  · intro k m hk1 hk2 hkm
    rw [hs, getKey_map_val, getKey_setKey_ne _ _ _ hk2,
      getKey_dropKey_ne _ _ hk1, hkm]
    rfl

/-- C4 witness: a record whose `_id` is identifier 5 and whose `other` field
holds identifier 7 serializes to a string `id` and a string `other`. -/
theorem c4_witness :
    getKey "id" (serialize_doc [("_id", .oid 5), ("other", .oid 7)])
      = some (.str (toHex24 5)) ∧
    getKey "other" (serialize_doc [("_id", .oid 5), ("other", .oid 7)])
      = some (.str (toHex24 7)) := by
  have h := c4_serialize_doc_top_level [("_id", .oid 5), ("other", .oid 7)] 5 (by decide)
  exact ⟨h.1, h.2.2.1 "other" 7 (by decide) (by decide) (by decide)⟩

/-- C4 counterexample: an identifier embedded inside a nested document is
*not* converted to a string — the claimed recursive conversion does not
happen; only the top level is rewritten. -/
theorem c4_counterexample :
    serialize_doc [("_id", .oid 1), ("ref", .doc [("x", .oid 2)])]
      = [("ref", .doc [("x", .oid 2)]), ("id", .str "000000000000000000000001")]
    ∧ getKey "ref" (serialize_doc [("_id", .oid 1), ("ref", .doc [("x", .oid 2)])])
        = some (.doc [("x", .oid 2)]) := by decide

/-!
## C5 — `/test` diagnostic endpoint
-/

/-- C5: for every store state — never initialized, connected, or erroring on
the collection listing — `/test` returns a 200 body (no branch raises), and
when the store errors the reported status embeds the error text truncated to
its first 50 characters. -/
theorem c5_test_database_total (env : TestEnv) :
    (∃ r, test_database env = .ok r ∧ r.backend = "✅ Running") ∧
    (∀ name e, env.dbState = .conn name (.error e) →
      ∃ r, test_database env = .ok r ∧
        r.database = "⚠️  Connected but Error: " ++ e.take 50) := by
  constructor
  · rcases env with ⟨st, u, nm⟩
    cases st with
    | isNone => exact ⟨_, rfl, rfl⟩
    | conn name lr => cases lr with
      | ok colls => exact ⟨_, rfl, rfl⟩
      | error e => exact ⟨_, rfl, rfl⟩
  · intro name e h
    rcases env with ⟨st, u, nm⟩
    cases st with
    | isNone => cases h
    | conn name2 lr =>
      obtain ⟨h1, h2⟩ := TestDbState.conn.inj h
      cases lr with
      | ok colls => cases h2
      | error e2 =>
        obtain rfl : e2 = e := (Except.error.inj h2)
        exact ⟨_, rfl, rfl⟩

/-- C5 witness: a connected store whose collection listing raises. -/
theorem c5_witness :
    ∃ r, test_database ⟨.conn "chatdb" (.error "boom"), true, true⟩ = .ok r ∧
      r.database = "⚠️  Connected but Error: " ++ ("boom".take 50) :=
  (c5_test_database_total ⟨.conn "chatdb" (.error "boom"), true, true⟩).2
    "chatdb" "boom" rfl

/-!
## C6 — GET single user
-/

/-- C6: with a working store, a malformed user id yields a 400, a
well-formed id matching no stored user yields a 404, and a well-formed id
matching a user yields 200 with the serialized record. -/
theorem c6_get_user_status (db : DB) (user_id : String) :
    (parseOid user_id = none → get_user db user_id = .http 400 "Invalid user id") ∧
    (∀ o, db.mode = .ok → parseOid user_id = some o →
      db.store.user.filter (matchesFilter [("_id", .oid o)]) = [] →
      get_user db user_id = .http 404 "User not found") ∧
    (∀ o d ds, db.mode = .ok → parseOid user_id = some o →
      db.store.user.filter (matchesFilter [("_id", .oid o)]) = d :: ds →
      get_user db user_id = .ok (serialize_doc d)) := by
  refine ⟨?_, ?_, ?_⟩
  · intro h; simp [get_user, h]
  · intro o hm hp hf
    simp [get_user, hp, get_documents, hm, Store.collOf, hf]
  · intro o d ds hm hp hf
    simp [get_user, hp, get_documents, hm, Store.collOf, hf]

/-- C6 witness: the three cases at concrete inputs on a one-user store. -/
theorem c6_witness :
    get_user okDB "not-a-valid-id" = .http 400 "Invalid user id" ∧
    get_user okDB "000000000000000000000005" = .http 404 "User not found" ∧
    get_user okDB uid0 = .ok (serialize_doc userDoc0) := by
  refine ⟨(c6_get_user_status okDB "not-a-valid-id").1 (by decide),
    (c6_get_user_status okDB "000000000000000000000005").2.1 5 rfl
      (by decide) (by decide),
    (c6_get_user_status okDB uid0).2.2 0 userDoc0 [] rfl (by decide) (by decide)⟩

/-!
## C7 — create user
-/

/-- C7: with a working store, every valid CreateUser payload yields a 200
body containing an `id` of 24 lowercase hex characters, echoing the
submitted `display_name` and `avatar_url`, with `status = "online"`. -/
theorem c7_create_user_response (db : DB) (p : CreateUser) (h : db.mode = .ok) :
    ∃ d, (create_user db p).1 = .ok d ∧
      getKey "id" d = some (.str (toHex24 db.store.nextId)) ∧
      (toHex24 db.store.nextId).length = 24 ∧
      (toHex24 db.store.nextId).data.all isLowerHexCh = true ∧
      getKey "display_name" d = some (.str p.display_name) ∧
      getKey "avatar_url" d = some (optStr p.avatar_url) ∧
      getKey "status" d = some (.str "online") := by
  refine ⟨("id", .str (toHex24 db.store.nextId)) ::
    [("display_name", .str p.display_name), ("avatar_url", optStr p.avatar_url),
     ("status", .str "online")], ?_, getKey_cons_self _ _ _, toHex24_length _,
     toHex24_all_hex _, ?_, ?_, ?_⟩
  · simp [create_user, create_document, h]
  · rw [getKey_cons_ne _ _ _ _ (by decide)]; exact getKey_cons_self _ _ _
  · rw [getKey_cons_ne _ _ _ _ (by decide), getKey_cons_ne _ _ _ _ (by decide)]
    exact getKey_cons_self _ _ _
  · rw [getKey_cons_ne _ _ _ _ (by decide), getKey_cons_ne _ _ _ _ (by decide),
      getKey_cons_ne _ _ _ _ (by decide)]
    exact getKey_cons_self _ _ _

/-- C7 witness: creating a user on the concrete healthy store. -/
theorem c7_witness :
    ∃ d, (create_user okDB ⟨"alice", some "http:avatar"⟩).1 = .ok d ∧
      getKey "id" d = some (.str (toHex24 okDB.store.nextId)) ∧
      (toHex24 okDB.store.nextId).length = 24 ∧
      (toHex24 okDB.store.nextId).data.all isLowerHexCh = true ∧
      getKey "display_name" d = some (.str "alice") ∧
      getKey "avatar_url" d = some (optStr (some "http:avatar")) ∧
      getKey "status" d = some (.str "online") :=
  c7_create_user_response okDB ⟨"alice", some "http:avatar"⟩ rfl

/-!
## C9 — send-message errors insert nothing
-/

/-- The send-message route either leaves the store untouched or returns a
200 body: the insert is the last step, after every check. -/
theorem send_message_route_state (db : DB) (rid : String) (p : SendMessage) :
    (send_message_route db rid p).2 = db ∨
    ∃ d, (send_message_route db rid p).1 = .ok d := by
  unfold send_message_route send_message
  repeat' split
  all_goals first
    | exact Or.inl rfl
    | exact Or.inr ⟨_, rfl⟩
    | (dsimp only []
       split
       all_goals first
         | exact Or.inl rfl
         | exact Or.inr ⟨_, rfl⟩)

/-- C9: every send-message request that terminates with an HTTP error
(422 validation, 400 malformed id, 404 absent room or sender) leaves the
whole store — in particular the message collection — unchanged; nothing is
inserted on the error paths. -/
theorem c9_error_leaves_messages (db : DB) (rid : String) (p : SendMessage)
    (c : Nat) (det : String)
    (h : (send_message_route db rid p).1 = .http c det) :
    (send_message_route db rid p).2 = db ∧
    (send_message_route db rid p).2.store.message = db.store.message := by
  rcases send_message_route_state db rid p with h2 | ⟨d, h2⟩
  · exact ⟨h2, by rw [h2]⟩
  · rw [h2] at h; cases h

/-- C9 witness: a malformed room id is a 400 and the concrete store —
message collection included — is unchanged. -/
theorem c9_witness :
    (send_message_route okDB "bad-room-id" ⟨uid0, "hello", "text"⟩).1
      = .http 400 "Invalid room id" ∧
    (send_message_route okDB "bad-room-id" ⟨uid0, "hello", "text"⟩).2 = okDB ∧
    (send_message_route okDB "bad-room-id" ⟨uid0, "hello", "text"⟩).2.store.message
      = okDB.store.message := by
  have h := c9_error_leaves_messages okDB "bad-room-id" ⟨uid0, "hello", "text"⟩
    400 "Invalid room id" (by decide)
  exact ⟨by decide, h.1, h.2⟩

/-!
## C10 — join of an absent room
-/

/-- `update_one` with an `_id` filter matching no stored room modifies
nothing. -/
theorem updateFirstRoom_no_match (roid : Nat) (uid : String) (rooms : List Doc)
    (h : ∀ d ∈ rooms, getKey "_id" d ≠ some (.oid roid)) :
    updateFirstRoom roid uid rooms = rooms := by
  induction rooms with
  | nil => rfl
  | cons d ds ih =>
    have hb : (getKey "_id" d == some (BVal.oid roid)) = false :=
      beq_eq_false_iff_ne.mpr (h d (List.mem_cons_self _ _))
    simp [updateFirstRoom, hb, ih (fun x hx => h x (List.mem_cons_of_mem _ hx))]

/-- A one-pair filter matches exactly when the field holds the value. -/
theorem matchesFilter_single (k : String) (v : BVal) (d : Doc) :
    matchesFilter [(k, v)] d = (getKey k d == some v) := by
  simp [matchesFilter, List.all]

/-- C10: a well-formed room id matching no stored room, with an existing
user, yields a 404 and leaves the room collection unchanged, even though the
membership update runs before the room-existence check (the update matches
nothing). -/
theorem c10_join_missing_room (db : DB) (rid : String) (p : JoinRoom)
    (roid uoid : Nat) (u : Doc)
    (hm : db.mode = .ok)
    (hr : parseOid rid = some roid)
    (hu : parseOid p.user_id = some uoid)
    (huser : db.store.user.find? (matchesFilter [("_id", .oid uoid)]) = some u)
    (hroom : ∀ d ∈ db.store.room, getKey "_id" d ≠ some (.oid roid)) :
    (join_room db rid p).1 = .http 404 "Room not found" ∧
    (join_room db rid p).2.store.room = db.store.room := by
  have hupd : updateFirstRoom roid p.user_id db.store.room = db.store.room :=
    updateFirstRoom_no_match _ _ _ hroom
  have hfind : db.store.room.find? (matchesFilter [("_id", BVal.oid roid)]) = none := by
    refine List.find?_eq_none.mpr (fun x hx => ?_)
    simp [matchesFilter_single, hroom x hx]
  simp [join_room, hr, hu, DB.findOne, hm, Store.collOf, huser,
    DB.updateOneAddToSet, hupd, hfind]

/-- A healthy store holding one user and no rooms. -/
def noRoomDB : DB :=
  { mode := .ok, store := { nextId := 2, user := [userDoc0], room := [], message := [] } }

/-- C10 witness: joining room 1 on a store without rooms. -/
theorem c10_witness :
    (join_room noRoomDB rid1 ⟨uid0⟩).1 = .http 404 "Room not found" ∧
    (join_room noRoomDB rid1 ⟨uid0⟩).2.store.room = noRoomDB.store.room :=
  c10_join_missing_room noRoomDB rid1 ⟨uid0⟩ 1 0 userDoc0 rfl (by decide) (by decide)
    (by decide) (by simp [noRoomDB])

/-!
## C8 — store failures on ordinary routes
-/

/-- C8 (amended): on every route other than the diagnostic one, a store
that is unavailable or errors during a required lookup manifests either as a
handled 400 (when the failing lookup shares the handler's identifier-format
`try`: the single-user lookup, send-message's room and sender checks, join's
user check) or as an unhandled propagation (the listings, the message fetch,
the inserts, join's membership update); each outcome below is an exact
equality, so no failing store ever yields a 404 or any other handled status.
Covered store states: erroring on every call (`errm`), erroring only at the
call touching a given collection — a connection failing mid-request
(`errOn`), and never initialized (`uninit`). -/
theorem c8_store_error_routes (db : DB) (m : String) (uid rid : String)
    (pc : CreateUser) (pr : CreateRoom) (pj : JoinRoom) (p : SendMessage)
    (limit : Nat) :
    (db.mode = .errm m →
      (∀ o, parseOid uid = some o → get_user db uid = .http 400 "Invalid user id") ∧
      (∀ o, parseOid rid = some o →
        send_message db rid p = (.http 400 "Invalid room id", db)) ∧
      (∀ o o2, parseOid rid = some o → parseOid pj.user_id = some o2 →
        join_room db rid pj = (.http 400 "Invalid user id", db)) ∧
      list_users db = .exn m ∧ list_rooms db = .exn m ∧
      (∀ o, parseOid rid = some o → get_messages db rid limit = .exn m) ∧
      (create_user db pc).1 = .exn m ∧ (create_room db pr).1 = .exn m) ∧
    (∀ o o2 r, db.mode = .errOn ["user"] m →
      parseOid rid = some o → parseOid p.sender_id = some o2 →
      db.store.room.find? (matchesFilter [("_id", .oid o)]) = some r →
      send_message db rid p = (.http 400 "Invalid user id", db)) ∧
    (∀ o o2 u, db.mode = .errOn ["room"] m →
      parseOid rid = some o → parseOid pj.user_id = some o2 →
      db.store.user.find? (matchesFilter [("_id", .oid o2)]) = some u →
      join_room db rid pj = (.exn m, db)) ∧
    (db.mode = .uninit →
      (∀ o, parseOid uid = some o → get_user db uid = .http 400 "Invalid user id") ∧
      (∀ o, parseOid rid = some o →
        send_message db rid p = (.http 400 "Invalid room id", db)) ∧
      (∀ o o2, parseOid rid = some o → parseOid pj.user_id = some o2 →
        join_room db rid pj = (.http 400 "Invalid user id", db)) ∧
      list_users db = .exn "StorageError" ∧ list_rooms db = .exn "StorageError" ∧
      (∀ o, parseOid rid = some o →
        get_messages db rid limit = .exn "StorageError") ∧
      (create_user db pc).1 = .exn "StorageError") := by
  refine ⟨?_, ?_, ?_, ?_⟩
  · intro hm
    refine ⟨?_, ?_, ?_, ?_, ?_, ?_, ?_, ?_⟩
    · intro o h; simp [get_user, h, get_documents, hm]
    · intro o h; simp [send_message, h, DB.findOne, hm]
    · intro o o2 h1 h2; simp [join_room, h1, h2, DB.findOne, hm]
    · simp [list_users, get_documents, hm]
    · simp [list_rooms, get_documents, hm]
    · intro o h; simp [get_messages, h, get_documents, hm]
    · simp [create_user, create_document, hm]
    · simp [create_room, create_document, hm]
  · intro o o2 r hm h1 h2 hr
    simp [send_message, h1, h2, DB.findOne, hm, Store.collOf, hr]
  · intro o o2 u hm h1 h2 hu
    simp [join_room, h1, h2, DB.findOne, hm, Store.collOf, hu,
      DB.updateOneAddToSet]
  · intro hm
    refine ⟨?_, ?_, ?_, ?_, ?_, ?_, ?_⟩
    · intro o h; simp [get_user, h, get_documents, hm]
    · intro o h; simp [send_message, h, DB.findOne, hm]
    · intro o o2 h1 h2; simp [join_room, h1, h2, DB.findOne, hm]
    · simp [list_users, get_documents, hm]
    · simp [list_rooms, get_documents, hm]
    · intro o h; simp [get_messages, h, get_documents, hm]
    · simp [create_user, create_document, hm]

/-- A store whose every operation raises. -/
def errDB : DB :=
  { mode := .errm "connection refused",
    store := { nextId := 0, user := [], room := [], message := [] } }

/-- The healthy data of `okDB` behind a connection that fails exactly at
calls touching the user collection (so the room lookup succeeds and the
sender lookup raises). -/
def errUserDB : DB :=
  { mode := .errOn ["user"] "connection reset", store := okDB.store }

/-- The healthy data of `okDB` behind a connection that fails exactly at
calls touching the room collection (so join's user check succeeds and the
membership update raises). -/
def errRoomDB : DB :=
  { mode := .errOn ["room"] "connection reset", store := okDB.store }

/-- The healthy data of `okDB` behind a `db` handle that is `None`. -/
def noneDB : DB :=
  { mode := .uninit, store := okDB.store }

/-- C8 witness: the handled-400 and the propagation outcomes at concrete
stores — fully erroring, failing at the sender check, failing at the
membership update, and never initialized. -/
theorem c8_witness :
    get_user errDB uid0 = .http 400 "Invalid user id" ∧
    list_users errDB = .exn "connection refused" ∧
    send_message errUserDB rid1 ⟨uid0, "hello", "text"⟩
      = (.http 400 "Invalid user id", errUserDB) ∧
    join_room errRoomDB rid1 ⟨uid0⟩ = (.exn "connection reset", errRoomDB) ∧
    get_user noneDB uid0 = .http 400 "Invalid user id" ∧
    list_users noneDB = .exn "StorageError" := by
  have h1 := (c8_store_error_routes errDB "connection refused" uid0 rid1
    ⟨"a", none⟩ ⟨"r", false, none⟩ ⟨uid0⟩ ⟨uid0, "hello", "text"⟩ 50).1 rfl
  have h2 := (c8_store_error_routes errUserDB "connection reset" uid0 rid1
    ⟨"a", none⟩ ⟨"r", false, none⟩ ⟨uid0⟩ ⟨uid0, "hello", "text"⟩ 50).2.1
    1 0 roomDoc1 rfl (by decide) (by decide) (by decide)
  have h3 := (c8_store_error_routes errRoomDB "connection reset" uid0 rid1
    ⟨"a", none⟩ ⟨"r", false, none⟩ ⟨uid0⟩ ⟨uid0, "hello", "text"⟩ 50).2.2.1
    1 0 userDoc0 rfl (by decide) (by decide) (by decide)
  have h4 := (c8_store_error_routes noneDB "unused" uid0 rid1
    ⟨"a", none⟩ ⟨"r", false, none⟩ ⟨uid0⟩ ⟨uid0, "hello", "text"⟩ 50).2.2.2 rfl
  exact ⟨h1.1 0 (by decide), h1.2.2.2.1, h2, h3, h4.1 0 (by decide), h4.2.2.2.1⟩

/-- C8 counterexample: on GET single-user with a well-formed identifier and
an erroring store the handler returns a handled 400 — neither a NotFound nor
an unhandled propagation; likewise send-message's room lookup. -/
theorem c8_counterexample :
    get_user errDB "000000000000000000000007" = .http 400 "Invalid user id" ∧
    (send_message errDB rid1 ⟨uid0, "hello", "text"⟩).1
      = .http 400 "Invalid room id" := by decide

/-!
## C1 — message content validation and trimming
-/

/-- A successful send stores (and echoes) the *trimmed* content. -/
theorem send_message_ok_content (db : DB) (rid : String) (p : SendMessage)
    (d : Doc) (h : (send_message db rid p).1 = .ok d) :
    getKey "content" d = some (.str (pyStrip p.content)) := by
  unfold send_message at h
  repeat' split at h
  all_goals dsimp only [] at h
  all_goals try split at h
  all_goals cases h
  all_goals rw [getKey_cons_ne _ _ _ _ (by decide),
    getKey_cons_ne _ _ _ _ (by decide), getKey_cons_ne _ _ _ _ (by decide)]
  all_goals exact getKey_cons_self _ _ _

/-- C1 (amended): a content of length 0 or 5001 is rejected with a 422
before any store access (the state is returned unchanged); lengths within
1..5000 pass validation and reach the handler; the stored and echoed
content is the *trimmed* submission, of length at most 5000 — but the
length bounds are checked before trimming, so an all-whitespace content may
be stored with fewer characters than the claimed lower bound (even zero). -/
theorem c1_send_message_content (db : DB) (rid : String) (p : SendMessage) :
    (p.content.length = 0 ∨ p.content.length = 5001 →
      send_message_route db rid p
        = (.http 422 "String should have at least 1 character", db)) ∧
    (1 ≤ p.content.length → p.content.length ≤ 5000 →
      send_message_route db rid p = send_message db rid p) ∧
    (∀ d, (send_message_route db rid p).1 = .ok d →
      getKey "content" d = some (.str (pyStrip p.content)) ∧
      (pyStrip p.content).length ≤ 5000) := by
  refine ⟨?_, ?_, ?_⟩
  · intro h
    have hc : (p.content.length < 1 || p.content.length > 5000) = true := by
      rcases h with h | h <;> simp [h]
    unfold send_message_route
    rw [if_pos hc]
  · intro h1 h2
    have hc : ¬((p.content.length < 1 || p.content.length > 5000) = true) := by
      simp only [Bool.or_eq_true, decide_eq_true_eq, not_or]
      omega
    unfold send_message_route
    rw [if_neg hc]
  · intro d h
    by_cases hc : (p.content.length < 1 || p.content.length > 5000) = true
    · unfold send_message_route at h
      rw [if_pos hc] at h
      cases h
    · unfold send_message_route at h
      rw [if_neg hc] at h
      have h5 : p.content.length ≤ 5000 := by
        by_contra hgt
        apply hc
        simp only [Bool.or_eq_true, decide_eq_true_eq]
        omega
      exact ⟨send_message_ok_content db rid p d h,
        le_trans (pyStrip_length_le _) h5⟩

/-- C1 witness: empty and 5001-char contents are rejected with the state
unchanged; a short and a 5000-char content pass validation. -/
theorem c1_witness :
    send_message_route okDB rid1 ⟨uid0, "", "text"⟩
      = (.http 422 "String should have at least 1 character", okDB) ∧
    send_message_route okDB rid1 ⟨uid0, ⟨List.replicate 5001 'a'⟩, "text"⟩
      = (.http 422 "String should have at least 1 character", okDB) ∧
    send_message_route okDB rid1 ⟨uid0, "hello", "text"⟩
      = send_message okDB rid1 ⟨uid0, "hello", "text"⟩ ∧
    send_message_route okDB rid1 ⟨uid0, ⟨List.replicate 5000 'a'⟩, "text"⟩
      = send_message okDB rid1 ⟨uid0, ⟨List.replicate 5000 'a'⟩, "text"⟩ := by
  have hlen1 : (String.mk (List.replicate 5001 'a')).length = 5001 := by
    show (List.replicate 5001 'a').length = 5001
    rw [List.length_replicate]
  have hlen2 : (String.mk (List.replicate 5000 'a')).length = 5000 := by
    show (List.replicate 5000 'a').length = 5000
    rw [List.length_replicate]
  exact ⟨(c1_send_message_content okDB rid1 ⟨uid0, "", "text"⟩).1 (Or.inl (by decide)),
    (c1_send_message_content okDB rid1 ⟨uid0, _, "text"⟩).1 (Or.inr hlen1),
    (c1_send_message_content okDB rid1 ⟨uid0, "hello", "text"⟩).2.1
      (by decide) (by decide),
    (c1_send_message_content okDB rid1 ⟨uid0, _, "text"⟩).2.1
      (by rw [hlen2]; omega) (by rw [hlen2])⟩

/-- C1 counterexample: a single-space content has length 1, passes the
validation bounds and is accepted (200 with the stored message echoed), yet
the stored content is the empty string — length 0 after trimming, outside
the claimed 1–5000 range. -/
theorem c1_counterexample :
    (send_message_route okDB rid1 ⟨uid0, " ", "text"⟩).1
      = .ok [("id", .str "000000000000000000000002"), ("room_id", .str rid1),
             ("sender_id", .str uid0), ("content", .str ""), ("type", .str "text"),
             ("is_edited", .bool false), ("is_deleted", .bool false)]
    ∧ (" " : String).length = 1 ∧ ("" : String).length = 0 := by decide

/-!
## C2 — message ordering
-/

theorem mem_insertByKey (x y : Doc) (l : List Doc) (h : y ∈ insertByKey x l) :
    y = x ∨ y ∈ l := by
  induction l with
  | nil =>
    simp [insertByKey] at h
    exact Or.inl h
  | cons a l ih =>
    rw [insertByKey] at h
    split at h
    · rcases List.mem_cons.mp h with h | h
      · exact Or.inl h
      · exact Or.inr h
    · rcases List.mem_cons.mp h with h | h
      · exact Or.inr (h ▸ List.mem_cons_self a l)
      · rcases ih h with h2 | h2
        · exact Or.inl h2
        · exact Or.inr (List.mem_cons_of_mem a h2)

theorem pairwise_insertByKey (x : Doc) (l : List Doc)
    (h : l.Pairwise (fun a b => createdKey a ≤ createdKey b)) :
    (insertByKey x l).Pairwise (fun a b => createdKey a ≤ createdKey b) := by
  induction l with
  | nil => simp [insertByKey]
  | cons a l ih =>
    rw [insertByKey]
    rcases List.pairwise_cons.mp h with ⟨ha, hl⟩
    split
    · rename_i hle
      refine List.pairwise_cons.mpr ⟨?_, h⟩
      intro b hb
      rcases List.mem_cons.mp hb with hb | hb
      · exact hb ▸ hle
      · exact le_trans hle (ha b hb)
    · rename_i hgt
      refine List.pairwise_cons.mpr ⟨?_, ih hl⟩
      intro b hb
      rcases mem_insertByKey x b _ hb with hb | hb
      · exact hb ▸ (not_le.mp hgt).le
      · exact ha b hb

/-- The handler's sort is non-decreasing in the `created_at`-or-0 key. -/
theorem sortByCreated_pairwise (l : List Doc) :
    (sortByCreated l).Pairwise (fun a b => createdKey a ≤ createdKey b) := by
  induction l with
  | nil => simp [sortByCreated]
  | cons x l ih =>
    rw [sortByCreated]
    exact pairwise_insertByKey x _ ih

/-- C2 (amended): for every GET messages request with a well-formed room id
on a working store, the returned list is the fetched messages sorted
non-decreasing by the key "`created_at`, or 0 when missing".  Consequently a
message with no creation timestamp is preceded only by messages whose key is
at most 0 — it sorts before any message with a *positive* creation time, but
ties with (and can legitimately follow) messages whose creation time is 0. -/
theorem c2_get_messages_sorted (db : DB) (rid : String) (roid : Nat) (limit : Nat)
    (hm : db.mode = .ok) (hr : parseOid rid = some roid) :
    ∃ ms, get_messages db rid limit = .ok (serialize_list ms) ∧
      ms.Pairwise (fun a b => createdKey a ≤ createdKey b) ∧
      (∀ (i j : Fin ms.length), i < j →
        getKey "created_at" (ms.get j) = none → createdKey (ms.get i) ≤ 0) := by
  refine ⟨sortByCreated ((db.store.message.filter
      (matchesFilter [("room_id", BVal.str rid)])).take limit), ?_, ?_, ?_⟩
  · simp [get_messages, hr, get_documents, hm, Store.collOf]
  · exact sortByCreated_pairwise _
  · intro i j hij hnone
    have hp := sortByCreated_pairwise ((db.store.message.filter
      (matchesFilter [("room_id", BVal.str rid)])).take limit)
    have hle := List.pairwise_iff_get.mp hp i j hij
    have hkey : createdKey ((sortByCreated ((db.store.message.filter
        (matchesFilter [("room_id", BVal.str rid)])).take limit)).get j) = 0 := by
      unfold createdKey
      rw [hnone]
    exact hkey ▸ hle

/-- A store with one message carrying `created_at = 0` and one without any
`created_at`, both in room 1, inserted in that order. -/
def msgT0 : Doc :=
  [("_id", .oid 3), ("room_id", .str rid1), ("created_at", .int 0),
   ("content", .str "first")]

/-- A message with no creation timestamp. -/
def msgNoT : Doc :=
  [("_id", .oid 4), ("room_id", .str rid1), ("content", .str "second")]

/-- A healthy store holding the two messages above. -/
def msgsDB : DB :=
  { mode := .ok,
    store := { nextId := 5, user := [userDoc0], room := [roomDoc1],
               message := [msgT0, msgNoT] } }

/-- C2 witness: the sorted listing on the concrete two-message store. -/
theorem c2_witness :
    ∃ ms, get_messages msgsDB rid1 50 = .ok (serialize_list ms) ∧
      ms.Pairwise (fun a b => createdKey a ≤ createdKey b) ∧
      (∀ (i j : Fin ms.length), i < j →
        getKey "created_at" (ms.get j) = none → createdKey (ms.get i) ≤ 0) :=
  c2_get_messages_sorted msgsDB rid1 1 50 rfl (by decide)

/-- C2 counterexample: the message *with* a creation time (0) is returned
before the message with *no* creation time, so a message with no timestamp
does not sort before every message that has one. -/
theorem c2_counterexample :
    get_messages msgsDB rid1 50 = .ok (serialize_list [msgT0, msgNoT])
    ∧ (getKey "created_at" msgT0).isSome = true
    ∧ getKey "created_at" msgNoT = none := by decide

/-!
## C3 — join idempotence and duplicates
-/

theorem addToSetVal_idem (uid : String) (v : BVal) :
    addToSetVal uid (addToSetVal uid v) = addToSetVal uid v := by
  cases v with
  | arr xs =>
    by_cases hc : xs.contains (BVal.str uid) = true
    · have h1 : addToSetVal uid (.arr xs) = .arr xs := by
        simp only [addToSetVal]; rw [if_pos hc]
      rw [h1, h1]
    · have hc2 : (xs ++ [BVal.str uid]).contains (BVal.str uid) = true := by simp
      have h1 : addToSetVal uid (.arr xs) = .arr (xs ++ [.str uid]) := by
        simp only [addToSetVal]; rw [if_neg hc]
      have h2 : addToSetVal uid (.arr (xs ++ [.str uid]))
          = .arr (xs ++ [.str uid]) := by
        simp only [addToSetVal]; rw [if_pos hc2]
      rw [h1, h2]
  | null => rfl
  | bool b => rfl
  | int n => rfl
  | str s => rfl
  | oid n => rfl
  | doc fs => rfl

theorem addToSetMembers_present (uid : String) (d : Doc)
    (h : d.any (fun p => p.1 == "members") = true) :
    addToSetMembers uid d
      = d.map (fun p => (p.1, if p.1 == "members" then addToSetVal uid p.2 else p.2)) := by
  unfold addToSetMembers
  rw [if_pos h]
  refine List.map_eq_map_iff.mpr (fun p hp => ?_)
  by_cases hk : (p.1 == "members") = true
  · rw [if_pos hk, if_pos hk]
  · rw [if_neg hk, if_neg hk]

theorem getKey_map_addMem (uid : String) (k : String) (d : Doc) :
    getKey k (d.map (fun p => (p.1, if p.1 == "members" then addToSetVal uid p.2 else p.2)))
      = (getKey k d).map (fun v => if k == "members" then addToSetVal uid v else v) := by
  induction d with
  | nil => rfl
  | cons p d ih =>
    rcases p with ⟨k1, v⟩
    by_cases h : k1 = k
    · subst h; simp only [List.map_cons, getKey_cons_self, Option.map_some']
    · simp only [List.map_cons, getKey_cons_ne _ _ _ _ h, ih]

theorem any_map_addMem (uid : String) (k : String) (d : Doc) :
    (d.map (fun p => (p.1, if p.1 == "members" then addToSetVal uid p.2 else p.2))).any
        (fun p => p.1 == k)
      = d.any (fun p => p.1 == k) := by
  induction d with
  | nil => rfl
  | cons p d ih =>
    simp only [List.map_cons, List.any_cons, ih]

theorem getKey_addToSetMembers_ne (uid : String) (k : String) (d : Doc)
    (hne : k ≠ "members") :
    getKey k (addToSetMembers uid d) = getKey k d := by
  by_cases h : d.any (fun p => p.1 == "members") = true
  · rw [addToSetMembers_present uid d h, getKey_map_addMem]
    have hk : (k == "members") = false := beq_eq_false_iff_ne.mpr hne
    cases getKey k d <;> simp [hk]
  · unfold addToSetMembers
    rw [if_neg h]
    exact getKey_append_one_ne k "members" _ (fun hh => hne hh.symm) d

theorem getKey_addToSetMembers_members (uid : String) (d : Doc) (v : BVal)
    (h : getKey "members" d = some v) :
    getKey "members" (addToSetMembers uid d) = some (addToSetVal uid v) := by
  have hany : d.any (fun p => p.1 == "members") = true := getKey_any _ _ _ h
  rw [addToSetMembers_present uid d hany, getKey_map_addMem, h]
  simp

theorem addToSetMembers_idem (uid : String) (d : Doc) :
    addToSetMembers uid (addToSetMembers uid d) = addToSetMembers uid d := by
  by_cases h : d.any (fun p => p.1 == "members") = true
  · have h2 : (addToSetMembers uid d).any (fun p => p.1 == "members") = true := by
      rw [addToSetMembers_present uid d h, any_map_addMem]
      exact h
    rw [addToSetMembers_present uid _ h2, addToSetMembers_present uid d h,
      List.map_map]
    refine List.map_eq_map_iff.mpr (fun p hp => ?_)
    by_cases hk : (p.1 == "members") = true
    · simp [Function.comp, hk, addToSetVal_idem]
    · simp [Function.comp, hk]
  · have habs : addToSetMembers uid d = d ++ [("members", .arr [.str uid])] := by
      unfold addToSetMembers; rw [if_neg h]
    rw [habs]
    have h2 : (d ++ [("members", BVal.arr [BVal.str uid])]).any
        (fun p => p.1 == "members") = true := by
      simp [List.any_append]
    unfold addToSetMembers
    rw [if_pos h2, List.map_append]
    have hfalse := List.any_eq_false.mp (Bool.not_eq_true _ ▸ h)
    have hmap : d.map
        (fun p => if p.1 == "members" then (p.1, addToSetVal uid p.2) else p) = d := by
      calc d.map (fun p => if p.1 == "members" then (p.1, addToSetVal uid p.2) else p)
          = d.map id := List.map_eq_map_iff.mpr (fun p hp => by
            rw [if_neg (hfalse p hp), id])
        _ = d := List.map_id d
    rw [hmap]
    simp [addToSetVal]

theorem updateFirstRoom_append (roid : Nat) (uid : String) (pre post : List Doc)
    (room : Doc)
    (hpre : ∀ d ∈ pre, getKey "_id" d ≠ some (.oid roid))
    (hid : getKey "_id" room = some (.oid roid)) :
    updateFirstRoom roid uid (pre ++ room :: post)
      = pre ++ addToSetMembers uid room :: post := by
  induction pre with
  | nil =>
    have hb : (getKey "_id" room == some (BVal.oid roid)) = true := by simp [hid]
    simp [updateFirstRoom, hb]
  | cons d pre ih =>
    have hb : (getKey "_id" d == some (BVal.oid roid)) = false :=
      beq_eq_false_iff_ne.mpr (hpre d (List.mem_cons_self _ _))
    simp [updateFirstRoom, hb,
      ih (fun x hx => hpre x (List.mem_cons_of_mem _ hx))]

theorem find?_first_match (p : Doc → Bool) (pre post : List Doc) (room : Doc)
    (hpre : ∀ d ∈ pre, p d = false) (hr : p room = true) :
    (pre ++ room :: post).find? p = some room := by
  induction pre with
  | nil =>
    rw [List.nil_append]
    exact List.find?_cons_of_pos _ hr
  | cons d pre ih =>
    rw [List.cons_append,
      List.find?_cons_of_neg _ (by simp [hpre d (List.mem_cons_self _ _)])]
    exact ih (fun x hx => hpre x (List.mem_cons_of_mem _ hx))

theorem addToSet_count (uid : String) (ms : List BVal) :
    ∃ ms1, addToSetVal uid (.arr ms) = .arr ms1 ∧
      1 ≤ ms1.count (.str uid) ∧
      (ms.count (.str uid) ≤ 1 → ms1.count (.str uid) = 1) := by
  by_cases hc : ms.contains (BVal.str uid) = true
  · have hmem : BVal.str uid ∈ ms := by simpa using hc
    refine ⟨ms, by simp only [addToSetVal]; rw [if_pos hc], ?_, ?_⟩
    · exact List.count_pos_iff.mpr hmem
    · intro hle; exact le_antisymm hle (List.count_pos_iff.mpr hmem)
  · have hmem : BVal.str uid ∉ ms := by simpa using hc
    refine ⟨ms ++ [BVal.str uid], by simp only [addToSetVal]; rw [if_neg hc], ?_, ?_⟩
    · simp [List.count_append]
    · intro _
      simp [List.count_append, List.count_eq_zero.mpr hmem]

/-- C3 (amended): joining the same existing user twice returns the same
room and leaves the store unchanged after the first join (the second
`$addToSet` is a no-op); the resulting members list contains the user at
least once, and exactly once provided it did not already list the user more
than once — pre-existing duplicate entries (possible via room creation with
an arbitrary members list) are preserved, not collapsed. -/
theorem c3_join_twice (db : DB) (rid : String) (p : JoinRoom)
    (roid uoid : Nat) (u room : Doc) (pre post : List Doc) (ms : List BVal)
    (hm : db.mode = .ok)
    (hr : parseOid rid = some roid)
    (hu : parseOid p.user_id = some uoid)
    (huser : db.store.user.find? (matchesFilter [("_id", .oid uoid)]) = some u)
    (hrooms : db.store.room = pre ++ room :: post)
    (hpre : ∀ d ∈ pre, getKey "_id" d ≠ some (.oid roid))
    (hid : getKey "_id" room = some (.oid roid))
    (hms : getKey "members" room = some (.arr ms)) :
    (join_room (join_room db rid p).2 rid p).2 = (join_room db rid p).2 ∧
    (join_room db rid p).1 = .ok (serialize_doc (addToSetMembers p.user_id room)) ∧
    (join_room (join_room db rid p).2 rid p).1
      = .ok (serialize_doc (addToSetMembers p.user_id room)) ∧
    ∃ ms1, getKey "members" (addToSetMembers p.user_id room) = some (.arr ms1) ∧
      1 ≤ ms1.count (.str p.user_id) ∧
      (ms.count (.str p.user_id) ≤ 1 → ms1.count (.str p.user_id) = 1) := by
  have hb_room1 : getKey "_id" (addToSetMembers p.user_id room) = some (.oid roid) :=
    (getKey_addToSetMembers_ne _ _ _ (by decide)).trans hid
  have hupd1 : updateFirstRoom roid p.user_id db.store.room
      = pre ++ addToSetMembers p.user_id room :: post := by
    rw [hrooms]; exact updateFirstRoom_append _ _ _ _ _ hpre hid
  have hfind1 : (pre ++ addToSetMembers p.user_id room :: post).find?
      (matchesFilter [("_id", BVal.oid roid)])
        = some (addToSetMembers p.user_id room) := by
    refine find?_first_match _ _ _ _ (fun d hd => ?_) ?_
    · rw [matchesFilter_single]; exact beq_eq_false_iff_ne.mpr (hpre d hd)
    · rw [matchesFilter_single]; simp [hb_room1]
  have hjoin1 : join_room db rid p
      = (.ok (serialize_doc (addToSetMembers p.user_id room)),
         { db with store := { db.store with
             room := pre ++ addToSetMembers p.user_id room :: post } }) := by
    simp [join_room, hr, hu, DB.findOne, hm, Store.collOf, huser,
      DB.updateOneAddToSet, hupd1, hfind1]
  have hupd2 : updateFirstRoom roid p.user_id
      (pre ++ addToSetMembers p.user_id room :: post)
      = pre ++ addToSetMembers p.user_id room :: post := by
    rw [updateFirstRoom_append roid p.user_id pre post _ hpre hb_room1,
      addToSetMembers_idem]
  have hjoin2 : join_room { db with store := { db.store with
      room := pre ++ addToSetMembers p.user_id room :: post } } rid p
      = (.ok (serialize_doc (addToSetMembers p.user_id room)),
         { db with store := { db.store with
             room := pre ++ addToSetMembers p.user_id room :: post } }) := by
    simp [join_room, hr, hu, DB.findOne, hm, Store.collOf, huser,
      DB.updateOneAddToSet, hupd2, hfind1]
  refine ⟨?_, ?_, ?_, ?_⟩
  · rw [hjoin1]
    rw [hjoin2]
  · rw [hjoin1]
  · rw [hjoin1]
    rw [hjoin2]
  · obtain ⟨ms1, hms1, hc1, hc2⟩ := addToSet_count p.user_id ms
    exact ⟨ms1, by rw [getKey_addToSetMembers_members _ _ _ hms, hms1], hc1, hc2⟩

/-- C3 witness: joining the one-member-free concrete room twice. -/
theorem c3_witness :
    (join_room (join_room okDB rid1 ⟨uid0⟩).2 rid1 ⟨uid0⟩).2
      = (join_room okDB rid1 ⟨uid0⟩).2 ∧
    (join_room okDB rid1 ⟨uid0⟩).1
      = .ok (serialize_doc (addToSetMembers uid0 roomDoc1)) ∧
    (join_room (join_room okDB rid1 ⟨uid0⟩).2 rid1 ⟨uid0⟩).1
      = .ok (serialize_doc (addToSetMembers uid0 roomDoc1)) ∧
    ∃ ms1, getKey "members" (addToSetMembers uid0 roomDoc1) = some (.arr ms1) ∧
      1 ≤ ms1.count (.str uid0) ∧
      (([] : List BVal).count (.str uid0) ≤ 1 → ms1.count (.str uid0) = 1) :=
  c3_join_twice okDB rid1 ⟨uid0⟩ 1 0 userDoc0 roomDoc1 [] [] [] rfl (by decide)
    (by decide) (by decide) rfl (by simp) (by decide) (by decide)

/-- A room whose members list already holds the same user twice (rooms can
be created with an arbitrary members list). -/
def roomDup : Doc :=
  [("_id", .oid 1), ("name", .str "general"), ("type", .str "channel"),
   ("members", .arr [.str uid0, .str uid0]), ("is_private", .bool false)]

/-- A healthy store whose single room lists user 0 twice. -/
def dupDB : DB :=
  { mode := .ok,
    store := { nextId := 2, user := [userDoc0], room := [roomDup], message := [] } }

/-- C3 counterexample: joining twice a room that already lists the user
twice leaves both occurrences — the members list does not contain the
identifier exactly once. -/
theorem c3_counterexample :
    (join_room (join_room dupDB rid1 ⟨uid0⟩).2 rid1 ⟨uid0⟩).2.store.room = [roomDup]
    ∧ getKey "members" roomDup = some (.arr [.str uid0, .str uid0])
    ∧ [BVal.str uid0, BVal.str uid0].count (BVal.str uid0) = 2 := by decide
